import Mathlib

/-
Verification of the reference-counted smart pointer in
src/homework/shared_ptr/shared_ptr.hpp (namespace `my`).

The embedding models the sequential semantics of `my::ControlBlock<T>` and
`my::shared_ptr<T>` over an explicit heap of control blocks.  Raw payload
pointers are `Option Nat` (none = nullptr, `some a` = address `a`); control
blocks live at `Nat` addresses in a `Heap`.  The heap additionally records,
per control-block address, how many times the stored deleter was invoked
(`deleter_calls`) and how many times the block itself was deleted
(`block_frees`), so that "the deleter is invoked exactly once" style
properties are directly observable.

A separate, tiny interleaving model (`dtorStep`, `concStep`, `concRun`)
captures the atomic-access structure of `shared_ptr::~shared_ptr` for the
concurrency claim.
-/

namespace My

/-- Model of `my::ControlBlock<T>` (shared_ptr.hpp lines 53-101): payload
pointer `ptr_`, counters `shared_refs_` (initialised to 1) and `weak_refs_`
(initialised to 0).  The deleter itself is modelled by the heap-level
`deleter_calls` counter, since all claims only observe how often it runs. -/
structure ControlBlock where
  ptr_ : Option Nat
  shared_refs_ : Nat
  weak_refs_ : Nat
deriving DecidableEq

/-- The heap of control blocks: `blocks` maps an address to the block living
there (`none` = unallocated or already deleted), `next_addr` is the next
fresh address handed out by `new`, `deleter_calls a` counts invocations of
`call_deleter` on the block at `a`, and `block_frees a` counts executions of
`delete control_block_ptr` for the block at `a`. -/
structure Heap where
  blocks : Nat → Option ControlBlock
  next_addr : Nat
  deleter_calls : Nat → Nat
  block_frees : Nat → Nat

/-- The empty heap. -/
def initHeap : Heap :=
  { blocks := fun _ => none
    next_addr := 0
    deleter_calls := fun _ => 0
    block_frees := fun _ => 0 }

/-- Overwrite the block stored at address `a`. -/
def Heap.update (h : Heap) (a : Nat) (v : Option ControlBlock) : Heap :=
  { h with blocks := fun x => if x = a then v else h.blocks x }

/-- `new ControlBlock<T>(ptr)` (lines 62-65): allocates a fresh block with
`shared_refs_ = 1`, `weak_refs_ = 0`; returns its address. -/
def newControlBlock (p : Option Nat) (h : Heap) : Nat × Heap :=
  (h.next_addr,
   { blocks := fun x => if x = h.next_addr then some ⟨p, 1, 0⟩ else h.blocks x
     next_addr := h.next_addr + 1
     deleter_calls := h.deleter_calls
     block_frees := h.block_frees })

/-- `ControlBlock::shared_refs()` (lines 80-82): atomic load of the shared
counter.  Reading a freed block is undefined behaviour in the source; the
model returns 0 there, and every scenario evaluated below only reads live
blocks. -/
def shared_refs (a : Nat) (h : Heap) : Nat :=
  match h.blocks a with
  | some cb => cb.shared_refs_
  | none => 0

/-- `ControlBlock::weak_refs()` (lines 84-86): atomic load of the weak
counter. -/
def weak_refs (a : Nat) (h : Heap) : Nat :=
  match h.blocks a with
  | some cb => cb.weak_refs_
  | none => 0

/-- `ControlBlock::increment_shared()` (lines 88-90):
`shared_refs_.exchange(shared_refs_ + 1)`, sequentially a plain +1. -/
def increment_shared (a : Nat) (h : Heap) : Heap :=
  match h.blocks a with
  | some cb => h.update a (some { cb with shared_refs_ := cb.shared_refs_ + 1 })
  | none => h

/-- `ControlBlock::decrement_shared()` (lines 92-96): if the counter is
nonzero, `shared_refs_.exchange(shared_refs_ - 1)`; decrementing zero is a
no-op (defensive floor). -/
def decrement_shared (a : Nat) (h : Heap) : Heap :=
  match h.blocks a with
  | some cb =>
      if cb.shared_refs_ ≠ 0 then
        h.update a (some { cb with shared_refs_ := cb.shared_refs_ - 1 })
      else h
  | none => h

/-- `ControlBlock::call_deleter()` (lines 76-78): invokes the stored deleter
on the payload; the model records the invocation count per block address. -/
def call_deleter (a : Nat) (h : Heap) : Heap :=
  { h with
    deleter_calls := fun x => if x = a then h.deleter_calls x + 1 else h.deleter_calls x }

/-- `delete control_block_ptr`: deallocates the block at `a` and records the
deallocation. -/
def delete_block (a : Nat) (h : Heap) : Heap :=
  { h with
    blocks := fun x => if x = a then none else h.blocks x
    block_frees := fun x => if x = a then h.block_frees x + 1 else h.block_frees x }

/-- Model of `my::shared_ptr<T>` (lines 103-251): the cached raw payload
pointer `ptr_` and the pointer to the control block (`none` = nullptr). -/
structure shared_ptr where
  ptr_ : Option Nat
  control_block_ptr : Option Nat
deriving DecidableEq

/-- `shared_ptr(T* ptr = nullptr)` (lines 108-114): caches `ptr`; allocates
a control block only when `ptr` is non-null. -/
def mk_shared_ptr (p : Option Nat) (h : Heap) : shared_ptr × Heap :=
  match p with
  | some _ =>
      let r := newControlBlock p h
      (⟨p, some r.1⟩, r.2)
  | none => (⟨none, none⟩, h)

/-- `~shared_ptr()` (lines 125-136): if a control block is present,
decrement the shared count, invoke the deleter if the count (re-read) is
zero, and delete the block if both counters (re-read) are zero. -/
def dtor (s : shared_ptr) (h : Heap) : Heap :=
  match s.control_block_ptr with
  | none => h
  | some a =>
      let h1 := decrement_shared a h
      let h2 := if shared_refs a h1 = 0 then call_deleter a h1 else h1
      if shared_refs a h2 = 0 ∧ weak_refs a h2 = 0 then delete_block a h2 else h2

/-- Copy constructor `shared_ptr(const shared_ptr&)` (lines 177-182): copies
both pointers and calls `control_block_ptr->increment_shared()`
unconditionally.  When the source is empty that call dereferences a null
pointer — undefined behaviour — modelled as `none`. -/
def copy_ctor (other : shared_ptr) (h : Heap) : Option (shared_ptr × Heap) :=
  match other.control_block_ptr with
  | none => none
  | some a => some (⟨other.ptr_, some a⟩, increment_shared a h)

/-- Copy assignment `operator=(const shared_ptr&)` (lines 147-175).
`selfIsOther` models the address identity test `this != &other`: when true
nothing runs.  Otherwise: if this handle has a block whose shared count is
exactly 1, invoke the deleter and delete that block (no decrement happens in
any other case); then adopt the source's pointers and, if the adopted block
is non-null, increment it. -/
def copy_assign (selfIsOther : Bool) (s other : shared_ptr) (h : Heap) :
    shared_ptr × Heap :=
  if selfIsOther then (s, h)
  else
    let h1 :=
      match s.control_block_ptr with
      | some a => if shared_refs a h = 1 then delete_block a (call_deleter a h) else h
      | none => h
    match other.control_block_ptr with
    | some b => (⟨other.ptr_, some b⟩, increment_shared b h1)
    | none => (⟨other.ptr_, none⟩, h1)

/-- Move assignment `operator=(shared_ptr&&)` (lines 184-204): if this
handle has a control block, invoke its deleter and delete it —
unconditionally, with no look at the shared count; then adopt the source's
pointers and null the source.  Returns (new this, new source, heap). -/
def move_assign (s other : shared_ptr) (h : Heap) :
    shared_ptr × shared_ptr × Heap :=
  let h1 :=
    match s.control_block_ptr with
    | some a => delete_block a (call_deleter a h)
    | none => h
  (⟨other.ptr_, other.control_block_ptr⟩, ⟨none, none⟩, h1)

/-- Construction from an rvalue handle.  The class declares a destructor,
copy constructor, copy assignment and move assignment but no move
constructor, so no implicit move constructor exists and overload resolution
binds the rvalue to the copy constructor's const reference: "move
construction" runs the copy constructor. -/
def move_ctor (other : shared_ptr) (h : Heap) : Option (shared_ptr × Heap) :=
  copy_ctor other h

/-- `get()` (lines 218-220): returns the cached raw pointer. -/
def get (s : shared_ptr) : Option Nat :=
  s.ptr_

/-- `use_count()` (lines 242-246): 0 when the control-block pointer is null,
otherwise the block's current shared count. -/
def use_count (s : shared_ptr) (h : Heap) : Nat :=
  match s.control_block_ptr with
  | none => 0
  | some a => shared_refs a h

/-- `operator bool()` (lines 248-250): true iff a control block is
present. -/
def to_bool (s : shared_ptr) : Bool :=
  s.control_block_ptr.isSome

/-- `operator==(std::nullptr_t)` (lines 206-208): true iff the control-block
pointer is null. -/
def eq_nullptr (s : shared_ptr) : Bool :=
  s.control_block_ptr.isNone

/-- `reset()` (lines 222-229): if a control block is present, invoke its
deleter and delete it, and null the control-block pointer.  The raw `ptr_`
is left untouched by the source. -/
def reset (s : shared_ptr) (h : Heap) : shared_ptr × Heap :=
  match s.control_block_ptr with
  | some a => (⟨s.ptr_, none⟩, delete_block a (call_deleter a h))
  | none => (s, h)

/-- `reset(T* other)` (lines 231-240): unconditional release of the current
block as in `reset()`, then adopt `other` and allocate a brand-new control
block over it — even when `other` is null. -/
def reset_ptr (s : shared_ptr) (p : Option Nat) (h : Heap) : shared_ptr × Heap :=
  let h1 :=
    match s.control_block_ptr with
    | some a => delete_block a (call_deleter a h)
    | none => h
  let r := newControlBlock p h1
  (⟨p, some r.1⟩, r.2)

/-
Interleaving model of `~shared_ptr()` for the concurrency claim.  Each
thread runs the destructor of its own handle to the same control block; the
shared state is the block's `shared_refs_` counter (`weak_refs_` stays 0, so
the weak half of line 132's condition is always true).  One program counter
value corresponds to one atomic access of the counter, under sequential
consistency:
  pc 0: the guard load `if (shared_refs_)` inside `decrement_shared` (line 93);
  pc 1: the decrement `shared_refs_.exchange(shared_refs_ - 1)` (line 94) —
        the source performs a load followed by an exchange, modelled
        conservatively as one indivisible decrement (the two-access original
        only has strictly more interleavings);
  pc 2: the separate re-load `shared_refs() == 0` (line 129) deciding the
        deleter call;
  pc 3: the further re-load `shared_refs() == 0 && weak_refs() == 0`
        (line 132) deciding `delete control_block_ptr`;
  pc 4: done.
-/

/-- One atomic step of a thread running the destructor: takes the thread's
program counter, the shared counter, and the global deleter-call and
block-free tallies; returns their new values. -/
def dtorStep (pc c calls frees : Nat) : Nat × Nat × Nat × Nat :=
  match pc with
  | 0 => if c = 0 then (2, c, calls, frees) else (1, c, calls, frees)
  | 1 => (2, c - 1, calls, frees)
  | 2 => if c = 0 then (3, c, calls + 1, frees) else (3, c, calls, frees)
  | 3 => if c = 0 then (4, c, calls, frees + 1) else (4, c, calls, frees)
  | _ => (pc, c, calls, frees)

/-- Joint state of two threads destroying their two handles to one control
block: the two program counters, the shared `shared_refs_` counter, and the
deleter-call and block-free tallies. -/
structure ConcSt where
  pc1 : Nat
  pc2 : Nat
  c : Nat
  calls : Nat
  frees : Nat
deriving DecidableEq

/-- Let one thread (true = thread 1) perform its next atomic step. -/
def concStep (st : ConcSt) (who : Bool) : ConcSt :=
  if who then
    let r := dtorStep st.pc1 st.c st.calls st.frees
    ⟨r.1, st.pc2, r.2.1, r.2.2.1, r.2.2.2⟩
  else
    let r := dtorStep st.pc2 st.c st.calls st.frees
    ⟨st.pc1, r.1, r.2.1, r.2.2.1, r.2.2.2⟩

/-- Run a schedule (list of thread choices) from a state. -/
def concRun (sched : List Bool) (st : ConcSt) : ConcSt :=
  sched.foldl concStep st

/-- Initial state: two handles to one control block (`shared_refs_ = 2`),
each thread about to run the destructor. -/
def concInit : ConcSt :=
  ⟨0, 0, 2, 0, 0⟩

/-- A schedule in which both decrements happen before either thread's
`shared_refs() == 0` re-load: thread 1 runs its guard and decrement, then
thread 2 runs its guard and decrement, then the two re-load checks
alternate. -/
def c6_sched : List Bool :=
  [true, true, false, false, true, false, true, false]

/-- Scenario driver: make `n` successive copies of the handle `s` via the
copy constructor, collecting all handles (the original included).  For a
non-empty `s` the `none` branch of `copy_ctor` is never taken. -/
def copy_n (s : shared_ptr) : Nat → Heap → List shared_ptr × Heap
  | 0, h => ([s], h)
  | n + 1, h =>
      let r := copy_n s n h
      match copy_ctor s r.2 with
      | some c => (c.1 :: r.1, c.2)
      | none => r

/-- Scenario for C1: `h1 = shared_ptr(new 42)`; `h2 = h1` (copy
construction); `e` an empty handle; `h1 = e` (copy assignment of an lvalue,
overwriting h1 while h2 still co-owns the block); then `~h2`, `~h1`, `~e`.
Afterwards no handle references the block at address 0. -/
def c1_final : Heap :=
  let m := mk_shared_ptr (some 42) initHeap
  match copy_ctor m.1 m.2 with
  | some r =>
      let asg := copy_assign false m.1 ⟨none, none⟩ r.2
      let h4 := dtor r.1 asg.2
      let h5 := dtor asg.1 h4
      dtor ⟨none, none⟩ h5
  | none => initHeap

/-- Scenario for C2: `h = shared_ptr(new 9)`, the source handle about to be
"moved" by construction. -/
def c2_src : shared_ptr :=
  (mk_shared_ptr (some 9) initHeap).1

/-- Heap after constructing `c2_src`: one block at address 0 with shared
count 1. -/
def c2_heap : Heap :=
  (mk_shared_ptr (some 9) initHeap).2

/-- Result of `shared_ptr h2{std::move(h)}` on `c2_src`: the class has no
move constructor, so the copy constructor runs. -/
def c2_res : Option (shared_ptr × Heap) :=
  move_ctor c2_src c2_heap

/-- Scenario for C4, step 1: `h1 = shared_ptr(new 7)`; `h2 = h1`.  Heap with
one block at address 0 and shared count 2. -/
def c4_heap2 : Heap :=
  match copy_ctor (mk_shared_ptr (some 7) initHeap).1 (mk_shared_ptr (some 7) initHeap).2 with
  | some r => r.2
  | none => initHeap

/-- Scenario for C4, step 2: `h1 = shared_ptr<int>{}` (move assignment from
an empty temporary) while `h2` still co-owns the block. -/
def c4_after : Heap :=
  (move_assign (mk_shared_ptr (some 7) initHeap).1 ⟨none, none⟩ c4_heap2).2.2

/-- Scenario for C5: `h = shared_ptr(new 3)` at payload address 3, then
`h.reset()`. -/
def c5_res : shared_ptr × Heap :=
  reset (mk_shared_ptr (some 3) initHeap).1 (mk_shared_ptr (some 3) initHeap).2

/-- Scenario for C9, step 1: `h1 = shared_ptr(new 7)`; `h2 = h1`.  Heap with
one block at address 0 and shared count 2. -/
def c9_heap2 : Heap :=
  match copy_ctor (mk_shared_ptr (some 7) initHeap).1 (mk_shared_ptr (some 7) initHeap).2 with
  | some r => r.2
  | none => initHeap

/-- Scenario for C9, step 2: `h1 = h2` — copy assignment between the two
distinct handles that share the block at address 0. -/
def c9_after : Heap :=
  (copy_assign false (mk_shared_ptr (some 7) initHeap).1 ⟨some 7, some 0⟩ c9_heap2).2

/-! Frame lemmas about the heap operations, shared by the claim proofs. -/

theorem blocks_update_self (h : Heap) (a : Nat) (v : Option ControlBlock) :
    (h.update a v).blocks a = v := by
  simp [Heap.update]

theorem blocks_update_ne (h : Heap) (a b : Nat) (v : Option ControlBlock)
    (hba : b ≠ a) : (h.update a v).blocks b = h.blocks b := by
  simp [Heap.update, hba]

theorem shared_refs_call_deleter (a b : Nat) (h : Heap) :
    shared_refs a (call_deleter b h) = shared_refs a h := rfl

theorem shared_refs_delete_block_ne (a b : Nat) (h : Heap) (hab : a ≠ b) :
    shared_refs a (delete_block b h) = shared_refs a h := by
  simp [shared_refs, delete_block, hab]

theorem increment_shared_deleter_calls (a b : Nat) (h : Heap) :
    (increment_shared b h).deleter_calls a = h.deleter_calls a := by
  cases hb : h.blocks b <;> simp [increment_shared, hb, Heap.update]

theorem increment_shared_block_frees (a b : Nat) (h : Heap) :
    (increment_shared b h).block_frees a = h.block_frees a := by
  cases hb : h.blocks b <;> simp [increment_shared, hb, Heap.update]

theorem increment_shared_blocks_ne (a b : Nat) (h : Heap) (hab : a ≠ b) :
    (increment_shared b h).blocks a = h.blocks a := by
  cases hb : h.blocks b <;> simp [increment_shared, hb, Heap.update, hab]

theorem shared_refs_increment_shared_self (a : Nat) (h : Heap) (cb : ControlBlock)
    (hb : h.blocks a = some cb) :
    shared_refs a (increment_shared a h) = cb.shared_refs_ + 1 := by
  simp [increment_shared, hb, shared_refs, Heap.update]

/-- Behaviour of `copy_n` on a handle that references a live block: after
`n` copies the block's shared count has grown by `n`, the list holds `n + 1`
handles, and every handle in it references the same block. -/
theorem copy_n_spec (s : shared_ptr) (a : Nat) (cb : ControlBlock)
    (hs : s.control_block_ptr = some a) :
    ∀ (n : Nat) (h : Heap), h.blocks a = some cb →
      (copy_n s n h).2.blocks a = some ⟨cb.ptr_, cb.shared_refs_ + n, cb.weak_refs_⟩ ∧
      (copy_n s n h).1.length = n + 1 ∧
      ∀ x ∈ (copy_n s n h).1, x.control_block_ptr = some a := by
  intro n
  induction n with
  | zero =>
      intro h hb
      refine ⟨by simpa using hb, rfl, ?_⟩
      intro x hx
      simp [copy_n] at hx
      subst hx
      exact hs
  | succ n ih =>
      intro h hb
      obtain ⟨ihb, ihl, ihm⟩ := ih h hb
      have hec : copy_ctor s (copy_n s n h).2
          = some (⟨s.ptr_, some a⟩, increment_shared a (copy_n s n h).2) := by
        simp [copy_ctor, hs]
      have hinc : (increment_shared a (copy_n s n h).2).blocks a
          = some ⟨cb.ptr_, cb.shared_refs_ + (n + 1), cb.weak_refs_⟩ := by
        simp [increment_shared, ihb, Heap.update]
        omega
      refine ⟨?_, ?_, ?_⟩
      · simp only [copy_n]
        rw [hec]
        exact hinc
      · simp only [copy_n]
        rw [hec]
        simp [ihl]
      · intro x hx
        simp only [copy_n] at hx
        rw [hec] at hx
        simp at hx
        rcases hx with hx | hx
        · simp [hx]
        · exact ihm x hx

/-- C7: `use_count()` returns 0 on an empty handle and the referenced
block's current shared count otherwise; a freshly constructed non-empty
handle reports 1; and when the original plus `n` copies of a fresh handle
exist simultaneously (`n + 1` handles in total), every one of them reports
`n + 1`. -/
theorem C7_use_count (p : Nat) (h0 : Heap) (n : Nat) (s2 : shared_ptr) (a2 : Nat)
    (hs2 : s2.control_block_ptr = some a2) :
    use_count ⟨none, none⟩ h0 = 0 ∧
    use_count s2 h0 = shared_refs a2 h0 ∧
    use_count (mk_shared_ptr (some p) h0).1 (mk_shared_ptr (some p) h0).2 = 1 ∧
    (copy_n (mk_shared_ptr (some p) h0).1 n (mk_shared_ptr (some p) h0).2).1.length = n + 1 ∧
    ∀ x ∈ (copy_n (mk_shared_ptr (some p) h0).1 n (mk_shared_ptr (some p) h0).2).1,
      use_count x (copy_n (mk_shared_ptr (some p) h0).1 n (mk_shared_ptr (some p) h0).2).2 = n + 1 := by
  have hmkb : (mk_shared_ptr (some p) h0).2.blocks h0.next_addr = some ⟨some p, 1, 0⟩ := by
    simp [mk_shared_ptr, newControlBlock]
  obtain ⟨hb, hl, hm⟩ := copy_n_spec (mk_shared_ptr (some p) h0).1 h0.next_addr
    ⟨some p, 1, 0⟩ rfl n (mk_shared_ptr (some p) h0).2 hmkb
  refine ⟨rfl, by simp [use_count, hs2], ?_, hl, ?_⟩
  · simp [use_count, mk_shared_ptr, shared_refs, newControlBlock]
  · intro x hx
    have hxa := hm x hx
    simp [use_count, hxa, shared_refs, hb]
    omega

/-- Witness for C7 at payload 5, one copy: two handles, both reporting
use_count 2. -/
theorem C7_use_count_witness :
    use_count ⟨none, none⟩ initHeap = 0 ∧
    use_count ⟨some 5, some 0⟩ initHeap = shared_refs 0 initHeap ∧
    use_count (mk_shared_ptr (some 5) initHeap).1 (mk_shared_ptr (some 5) initHeap).2 = 1 ∧
    (copy_n (mk_shared_ptr (some 5) initHeap).1 1 (mk_shared_ptr (some 5) initHeap).2).1.length = 2 ∧
    ∀ x ∈ (copy_n (mk_shared_ptr (some 5) initHeap).1 1 (mk_shared_ptr (some 5) initHeap).2).1,
      use_count x (copy_n (mk_shared_ptr (some 5) initHeap).1 1 (mk_shared_ptr (some 5) initHeap).2).2 = 2 :=
  C7_use_count 5 initHeap 1 ⟨some 5, some 0⟩ 0 rfl

/-- C8: self-assignment `h = h` is caught by the identity test
`this != &other` and is a complete no-op: handle and heap are returned
unchanged, so `use_count()` and `get()` are unchanged and no deleter runs. -/
theorem C8_self_assign_noop (s : shared_ptr) (h : Heap) :
    copy_assign true s s h = (s, h) ∧
    use_count (copy_assign true s s h).1 (copy_assign true s s h).2 = use_count s h ∧
    get (copy_assign true s s h).1 = get s ∧
    ∀ a : Nat, (copy_assign true s s h).2.deleter_calls a = h.deleter_calls a :=
  ⟨rfl, rfl, rfl, fun _ => rfl⟩

/-- C10: `reset(p)` with a null `p` still allocates a fresh control block
over the null payload, so the handle afterwards reports boolean true,
use_count 1 and a null `get()`; constructing from a null pointer instead
yields an empty handle (no block, boolean false, use_count 0). -/
theorem C10_reset_null_allocates (s : shared_ptr) (h : Heap) :
    to_bool (reset_ptr s none h).1 = true ∧
    use_count (reset_ptr s none h).1 (reset_ptr s none h).2 = 1 ∧
    get (reset_ptr s none h).1 = none ∧
    (mk_shared_ptr none h).1 = ⟨none, none⟩ ∧
    to_bool (mk_shared_ptr none h).1 = false ∧
    use_count (mk_shared_ptr none h).1 (mk_shared_ptr none h).2 = 0 ∧
    get (mk_shared_ptr none h).1 = none := by
  refine ⟨rfl, ?_, rfl, rfl, rfl, rfl, rfl⟩
  simp [reset_ptr, newControlBlock, use_count, shared_refs]

/-- C5 (amended): after `reset()` on a handle that owns a block, the handle
has no control block — boolean conversion false, use_count 0, the deleter
having run once and the block freed once — but the raw pointer is left
untouched, so `get()` still returns the previous pointer, not null. -/
theorem C5_reset_keeps_raw (s : shared_ptr) (h : Heap) (a : Nat)
    (hs : s.control_block_ptr = some a) :
    (reset s h).1 = ⟨s.ptr_, none⟩ ∧
    to_bool (reset s h).1 = false ∧
    use_count (reset s h).1 (reset s h).2 = 0 ∧
    get (reset s h).1 = s.ptr_ ∧
    (reset s h).2.deleter_calls a = h.deleter_calls a + 1 ∧
    (reset s h).2.block_frees a = h.block_frees a + 1 := by
  simp [reset, hs, to_bool, use_count, get, delete_block, call_deleter]

/-- Witness for C5: a handle over payload address 3 after `reset()`. -/
theorem C5_reset_keeps_raw_witness :
    c5_res.1 = ⟨some 3, none⟩ ∧
    to_bool c5_res.1 = false ∧
    use_count c5_res.1 c5_res.2 = 0 ∧
    get c5_res.1 = some 3 ∧
    c5_res.2.deleter_calls 0 = 1 ∧
    c5_res.2.block_frees 0 = 1 :=
  C5_reset_keeps_raw (mk_shared_ptr (some 3) initHeap).1 (mk_shared_ptr (some 3) initHeap).2 0 rfl

/-- Counterexample to C5 as stated: after `reset()` on a handle constructed
over payload address 3, `get()` returns that address, not null, although
the block is gone. -/
theorem C5_counterexample :
    ¬ get c5_res.1 = none ∧ get c5_res.1 = some 3 ∧ to_bool c5_res.1 = false := by
  decide

/-- C4 (amended): move assignment onto a handle that owns a control block
releases it unconditionally — one deleter invocation and one block
deallocation, whatever the shared count — and does nothing when the
destination is empty. -/
theorem C4_move_assign_unconditional_release (s other : shared_ptr) (h : Heap)
    (a : Nat) (q : Option Nat) (hs : s.control_block_ptr = some a) :
    (move_assign s other h).2.2.deleter_calls a = h.deleter_calls a + 1 ∧
    (move_assign s other h).2.2.block_frees a = h.block_frees a + 1 ∧
    (move_assign s other h).2.2.blocks a = none ∧
    (move_assign ⟨q, none⟩ other h).2.2 = h := by
  refine ⟨?_, ?_, ?_, rfl⟩ <;> simp [move_assign, hs, delete_block, call_deleter]

/-- Witness for C4: move-assigning onto the co-owning handle of the block
at address 0 (shared count 2) releases it anyway. -/
theorem C4_move_assign_witness :
    c4_after.deleter_calls 0 = 1 ∧
    c4_after.block_frees 0 = 1 ∧
    c4_after.blocks 0 = none ∧
    (move_assign ⟨none, none⟩ ⟨none, none⟩ c4_heap2).2.2 = c4_heap2 :=
  C4_move_assign_unconditional_release (mk_shared_ptr (some 7) initHeap).1 ⟨none, none⟩ c4_heap2 0 none rfl

/-- Counterexample to C4 as stated: with the block at address 0 shared by
two handles (count 2, so the destination is not the sole owner),
move-assigning onto one of them still invokes the deleter and frees the
block. -/
theorem C4_counterexample :
    shared_refs 0 c4_heap2 = 2 ∧ c4_after.deleter_calls 0 = 1 ∧ c4_after.block_frees 0 = 1 := by
  decide

/-- C1 evaluated at the failing input: `h1 = shared_ptr(new 42)`;
`h2 = h1`; `h1 = e` for an empty lvalue `e` (copy assignment skips the
decrement because the count is 2, not 1); then all handles are destroyed.
No handle references the block any more, yet the deleter never ran and the
block is still allocated with count 1: the managed object leaks. -/
theorem C1_copy_assign_leak :
    c1_final.deleter_calls 0 = 0 ∧
    c1_final.blocks 0 = some ⟨some 42, 1, 0⟩ ∧
    c1_final.block_frees 0 = 0 := by
  decide

/-- C6 evaluated at the failing schedule: starting from a block with shared
count 2 and both owning handles being destroyed concurrently, the schedule
that runs both decrements before either `shared_refs() == 0` re-load makes
both threads observe zero: the deleter runs twice and the control block is
deleted twice. -/
theorem C6_double_release :
    (concRun c6_sched concInit).calls = 2 ∧ (concRun c6_sched concInit).frees = 2 := by
  decide

/-- C3 evaluated at the failing input: copy-constructing from an empty
handle takes the branch that dereferences the null control-block pointer
(`control_block_ptr->increment_shared()` with `control_block_ptr ==
nullptr`), modelled as `none`; it does not yield an empty handle. -/
theorem C3_copy_empty_null_deref :
    copy_ctor ⟨none, none⟩ initHeap = none := rfl

/-- Counterexample to C2 as stated: "moving" a fresh handle by construction
runs the copy constructor (the class declares no move constructor), so the
shared count changes from 1 to 2 and the source is left non-empty: boolean
conversion true, `get()` non-null, use_count 2. -/
theorem C2_move_ctor_shares :
    shared_refs 0 c2_heap = 1 ∧
    Option.map (fun r => (shared_refs 0 r.2, use_count c2_src r.2, to_bool c2_src, get c2_src)) c2_res
      = some (2, 2, true, some 9) := by
  decide

/-- C2 (amended): move assignment from a non-empty handle into a
destination that does not share its block transfers payload and block with
no change to the source's counter, and leaves the source a valid empty
handle (boolean false, null `get()`, use_count 0); construction from an
rvalue instead runs the copy constructor, incrementing the counter and
leaving the source untouched. -/
theorem C2_move_assign_transfers (s dest : shared_ptr) (h : Heap) (a : Nat)
    (hs : s.control_block_ptr = some a) (hdest : dest.control_block_ptr ≠ some a) :
    (move_assign dest s h).1 = ⟨s.ptr_, some a⟩ ∧
    get (move_assign dest s h).1 = get s ∧
    shared_refs a (move_assign dest s h).2.2 = shared_refs a h ∧
    use_count (move_assign dest s h).1 (move_assign dest s h).2.2 = use_count s h ∧
    (move_assign dest s h).2.1 = ⟨none, none⟩ ∧
    to_bool (move_assign dest s h).2.1 = false ∧
    get (move_assign dest s h).2.1 = none ∧
    use_count (move_assign dest s h).2.1 (move_assign dest s h).2.2 = 0 ∧
    move_ctor s h = some (⟨s.ptr_, some a⟩, increment_shared a h) := by
  cases hd : dest.control_block_ptr with
  | none =>
      simp [move_assign, hd, hs, get, use_count, to_bool, move_ctor, copy_ctor]
  | some b =>
      have hab : a ≠ b := fun hab => hdest (by rw [hd, hab])
      simp [move_assign, hd, hs, get, use_count, to_bool, move_ctor, copy_ctor,
            shared_refs_delete_block_ne _ _ _ hab, shared_refs_call_deleter]

/-- Witness for C2: move-assigning the fresh handle over payload 9 into an
empty destination. -/
theorem C2_move_assign_transfers_witness :
    (move_assign ⟨none, none⟩ c2_src c2_heap).1 = ⟨some 9, some 0⟩ ∧
    get (move_assign ⟨none, none⟩ c2_src c2_heap).1 = get c2_src ∧
    shared_refs 0 (move_assign ⟨none, none⟩ c2_src c2_heap).2.2 = shared_refs 0 c2_heap ∧
    use_count (move_assign ⟨none, none⟩ c2_src c2_heap).1 (move_assign ⟨none, none⟩ c2_src c2_heap).2.2
      = use_count c2_src c2_heap ∧
    (move_assign ⟨none, none⟩ c2_src c2_heap).2.1 = ⟨none, none⟩ ∧
    to_bool (move_assign ⟨none, none⟩ c2_src c2_heap).2.1 = false ∧
    get (move_assign ⟨none, none⟩ c2_src c2_heap).2.1 = none ∧
    use_count (move_assign ⟨none, none⟩ c2_src c2_heap).2.1 (move_assign ⟨none, none⟩ c2_src c2_heap).2.2 = 0 ∧
    move_ctor c2_src c2_heap = some (⟨some 9, some 0⟩, increment_shared 0 c2_heap) :=
  C2_move_assign_transfers c2_src ⟨none, none⟩ c2_heap 0 rfl (by decide)

/-- C9 (amended): copy-assigning onto a handle owning a block whose shared
count exceeds 1 never decrements that block, never invokes its deleter and
never frees it; the block is entirely unchanged when the source references
a different block or none, and is incremented by one when the source
references the same block. -/
theorem C9_copy_assign_frame (s other : shared_ptr) (h : Heap) (a : Nat)
    (hs : s.control_block_ptr = some a) (hcount : 1 < shared_refs a h) :
    (other.control_block_ptr ≠ some a →
       (copy_assign false s other h).2.blocks a = h.blocks a ∧
       (copy_assign false s other h).2.deleter_calls a = h.deleter_calls a ∧
       (copy_assign false s other h).2.block_frees a = h.block_frees a) ∧
    (other.control_block_ptr = some a →
       shared_refs a (copy_assign false s other h).2 = shared_refs a h + 1 ∧
       (copy_assign false s other h).2.deleter_calls a = h.deleter_calls a ∧
       (copy_assign false s other h).2.block_frees a = h.block_frees a) := by
  have hne1 : shared_refs a h ≠ 1 := by omega
  constructor
  · intro hne
    cases ho : other.control_block_ptr with
    | none => simp [copy_assign, hs, hne1, ho]
    | some b =>
        have hab : a ≠ b := fun hab => hne (by rw [ho, hab])
        simp [copy_assign, hs, hne1, ho, increment_shared_blocks_ne _ _ _ hab,
              increment_shared_deleter_calls, increment_shared_block_frees]
  · intro ho
    cases hb : h.blocks a with
    | none => exfalso; simp [shared_refs, hb] at hcount
    | some cb =>
        have hsr : shared_refs a h = cb.shared_refs_ := by simp [shared_refs, hb]
        have hne1' : cb.shared_refs_ ≠ 1 := hsr ▸ hne1
        simp [copy_assign, hs, hne1, hne1', ho, increment_shared_deleter_calls,
              increment_shared_block_frees, shared_refs_increment_shared_self a h cb hb, hsr]

/-- Witness for C9: assigning between two distinct handles that share the
block at address 0 (count 2) increments the count without any deleter call
or deallocation. -/
theorem C9_copy_assign_frame_witness :
    shared_refs 0 c9_after = shared_refs 0 c9_heap2 + 1 ∧
    c9_after.deleter_calls 0 = c9_heap2.deleter_calls 0 ∧
    c9_after.block_frees 0 = c9_heap2.block_frees 0 :=
  (C9_copy_assign_frame (mk_shared_ptr (some 7) initHeap).1 ⟨some 7, some 0⟩ c9_heap2 0 rfl (by decide)).2 rfl

/-- Counterexample to C9 as stated: when the source of the assignment
shares the destination's block (two distinct handles, count 2), the old
block is not left unchanged — its shared count becomes 3, so the remaining
owner no longer observes the count it saw before the assignment. -/
theorem C9_counterexample :
    shared_refs 0 c9_heap2 = 2 ∧ shared_refs 0 c9_after = 3 := by
  decide

end My
